import Mathlib

/-!
Shallow embedding of the two notebook source files of the repository
(src/ch01python/037comprehensions.ipynb.py and
src/ch07dry/040Exceptions.ipynb.py) and proofs about the claims made by
the natural-language specification.

Python exceptions are modelled by the inductive type `PyExc`; a fallible
computation returns `Except PyExc α`.  The file system the notebook cells
read and write is modelled as a map from path to optional file contents
(`none` models a missing file, giving FileNotFoundError on `open`).  The
tiny subset of YAML used by the notebook (one `key: value` mapping per
line) is parsed by `safe_load`, a structural-recursion model of
`yaml.safe_load` on exactly the fixture shapes the notebook writes.
-/

namespace Notebook

/-- Model of the Python exceptions raised in the two source files.
`runtimeError` carries its `__cause__` (the exception named by
`raise ... from e`); `myCustomErrorArith` models the first
`MyCustomErrorType` (line 65, a subclass of `ArithmeticError`), and
`myCustomErrorCat` the second one (line 81, a subclass of `Exception`
carrying a `category`). -/
inductive PyExc where
  | zeroDivisionError : PyExc
  | typeError : PyExc
  | keyError : PyExc
  | fileNotFoundError : PyExc
  | nameError : PyExc
  | arithmeticError : PyExc
  | syntaxError : PyExc
  | valueError : String → PyExc
  | runtimeError : String → PyExc → PyExc
  | myCustomErrorArith : String → PyExc
  | myCustomErrorCat : Int → PyExc
  deriving DecidableEq, Repr

/-- Python class-hierarchy test: `except ArithmeticError` also catches
`ZeroDivisionError` and the first `MyCustomErrorType` (which inherits
from `ArithmeticError`). -/
def isArithmeticError : PyExc → Bool
  | PyExc.arithmeticError => true
  | PyExc.zeroDivisionError => true
  | PyExc.myCustomErrorArith _ => true
  | _ => false

def isSyntaxError : PyExc → Bool
  | PyExc.syntaxError => true
  | _ => false

def isTypeError : PyExc → Bool
  | PyExc.typeError => true
  | _ => false

def isValueError : PyExc → Bool
  | PyExc.valueError _ => true
  | _ => false

/-- The file system visible to a cell: path to optional raw contents.
`none` models a file that does not exist, so that `open` raises
FileNotFoundError. -/
abbrev FS := String → Option String

/-- Split a character list on a separator character (used to split file
contents into lines). -/
def splitOnChar (sep : Char) : List Char → List (List Char)
  | [] => [[]]
  | c :: cs =>
    match splitOnChar sep cs with
    | [] => if c = sep then [[], []] else [[c]]
    | r :: rs => if c = sep then [] :: r :: rs else (c :: r) :: rs

/-- Break a line at the first colon, returning the text before it and
after it. -/
def breakAtColon : List Char → Option (List Char × List Char)
  | [] => none
  | c :: cs =>
    if c = ':' then some ([], cs)
    else
      match breakAtColon cs with
      | some (k, v) => some (c :: k, v)
      | none => none

/-- Parse one `key: value` line of the simple YAML mappings the notebook
writes; a line without a `: ` separator yields no entry. -/
def parseYamlLine (l : List Char) : Option (String × String) :=
  match breakAtColon l with
  | some (k, ' ' :: v) => some (String.mk k, String.mk v)
  | _ => none

/-- Model of `yaml.safe_load` restricted to the flat `key: value`
mappings used by the notebook fixtures: the result is the association
list of parsed lines. -/
def safe_load (s : String) : List (String × String) :=
  (splitOnChar '\n' s.data).filterMap parseYamlLine

/-- Python dictionary subscription `config[key]`: `none` models the
KeyError path. -/
def dictGet (config : List (String × String)) (key : String) : Option String :=
  match config with
  | [] => none
  | (k, v) :: rest => if k = key then some v else dictGet rest key

deriving instance DecidableEq for Except

/-- Outcome of running one of the `read_credentials` versions: the
returned value (or the exception escaping the call), whether `open`
succeeded, and whether `datasource.close()` was executed. -/
structure RunResult where
  result : Except PyExc (String × Option String)
  openedFile : Bool
  closedFile : Bool
  deriving DecidableEq, Repr

/-- First version of `read_credentials`
(src/ch07dry/040Exceptions.ipynb.py lines 158-173): `try` opens the
source, loads it, reads `userid` and `password`, and closes the handle;
`except FileNotFoundError` and `except KeyError` both return the
anonymous pair.  On the KeyError path the handle stays open because
`datasource.close()` sits after the subscript that raises. -/
def read_credentials_v1 (fs : FS) (source : String) : RunResult :=
  match fs source with
  | none => ⟨Except.ok ("anonymous", none), false, false⟩
  | some contents =>
    match dictGet (safe_load contents) "userid" with
    | none => ⟨Except.ok ("anonymous", none), true, false⟩
    | some user =>
      match dictGet (safe_load contents) "password" with
      | none => ⟨Except.ok ("anonymous", none), true, false⟩
      | some password => ⟨Except.ok (user, some password), true, true⟩

/-- Second version of `read_credentials`
(src/ch07dry/040Exceptions.ipynb.py lines 190-202): the body reads both
keys inside `try`, only FileNotFoundError is caught, and a `finally`
clause runs `datasource.close()`.  When the file is missing the handler
runs, but `datasource` was never bound, so the `finally` clause raises
NameError (UnboundLocalError); when a key is missing the KeyError is not
caught and escapes after the `finally` closes the handle. -/
def read_credentials_v2 (fs : FS) (source : String) : RunResult :=
  match fs source with
  | none => ⟨Except.error PyExc.nameError, false, false⟩
  | some contents =>
    match dictGet (safe_load contents) "userid" with
    | none => ⟨Except.error PyExc.keyError, true, true⟩
    | some user =>
      match dictGet (safe_load contents) "password" with
      | none => ⟨Except.error PyExc.keyError, true, true⟩
      | some password => ⟨Except.ok (user, some password), true, true⟩

/-- Third version of `read_credentials`
(src/ch07dry/040Exceptions.ipynb.py lines 211-223): only `open` is in
`try`; the loading and key reads move to an `else` clause, whose errors
are not caught; `finally` runs `datasource.close()`.  The missing-file
path again reaches `finally` with `datasource` unbound and raises
NameError; a missing key raises KeyError from the `else` clause. -/
def read_credentials_v3 (fs : FS) (source : String) : RunResult :=
  match fs source with
  | none => ⟨Except.error PyExc.nameError, false, false⟩
  | some contents =>
    match dictGet (safe_load contents) "userid" with
    | none => ⟨Except.error PyExc.keyError, true, true⟩
    | some user =>
      match dictGet (safe_load contents) "password" with
      | none => ⟨Except.error PyExc.keyError, true, true⟩
      | some password => ⟨Except.ok (user, some password), true, true⟩

/-- The fixture files the notebook writes before the examples run
(lines 145-151 write datasource2.yaml and datasource3.yaml, line 331
writes example.yaml); datasource.yaml is never created. -/
def fixtureFS : FS := fun path =>
  if path = "datasource2.yaml" then some "userid: eidle\npassword: secret\n"
  else if path = "datasource3.yaml" then some "user: eidle\npassword: secret\n"
  else if path = "example.yaml" then some "modelname: brilliant\n"
  else none

/-- `f4` (src/ch07dry/040Exceptions.ipynb.py lines 237-245): returns for
`x = 0`, raises ArithmeticError for `x = 1`, SyntaxError for `x = 2`,
TypeError for `x = 3`, and falls through (returning None) otherwise. -/
def f4 (x : Nat) : Except PyExc Unit :=
  if x = 0 then Except.ok ()
  else if x = 1 then Except.error PyExc.arithmeticError
  else if x = 2 then Except.error PyExc.syntaxError
  else if x = 3 then Except.error PyExc.typeError
  else Except.ok ()

/-- `f3` (lines 249-255): prints F3Before, calls `f4`, prints F3After;
`except ArithmeticError` prints the handler message.  The first
component is the print trace, the second the outcome. -/
def f3 (x : Nat) : List String × Except PyExc Unit :=
  match f4 x with
  | Except.ok () => (["F3Before", "F3After"], Except.ok ())
  | Except.error e =>
    if isArithmeticError e then (["F3Before", "F3Except (💣)"], Except.ok ())
    else (["F3Before"], Except.error e)

/-- `f2` (lines 259-265): prints F2Before, calls `f3`, prints F2After;
`except SyntaxError` prints the handler message. -/
def f2 (x : Nat) : List String × Except PyExc Unit :=
  match f3 x with
  | (t, Except.ok ()) => ("F2Before" :: t ++ ["F2After"], Except.ok ())
  | (t, Except.error e) =>
    if isSyntaxError e then ("F2Before" :: t ++ ["F2Except (💣)"], Except.ok ())
    else ("F2Before" :: t, Except.error e)

/-- `f1` (lines 269-275): prints F1Before, calls `f2`, prints F1After;
`except TypeError` prints the handler message. -/
def f1 (x : Nat) : List String × Except PyExc Unit :=
  match f2 x with
  | (t, Except.ok ()) => ("F1Before" :: t ++ ["F1After"], Except.ok ())
  | (t, Except.error e) =>
    if isTypeError e then ("F1Before" :: t ++ ["F1Except (💣)"], Except.ok ())
    else ("F1Before" :: t, Except.error e)

/-- `lower_function` (lines 407-408): raises a ValueError. -/
def lower_function : Except PyExc Unit :=
  Except.error (PyExc.valueError "Error in lower function!")

/-- `higher_function` (lines 411-415): calls `lower_function` and, on
ValueError `e`, raises `RuntimeError(...) from e`, attaching `e` as the
cause of the new exception. -/
def higher_function : Except PyExc Unit :=
  match lower_function with
  | Except.ok () => Except.ok ()
  | Except.error e =>
    if isValueError e then Except.error (PyExc.runtimeError "Error in higher function!" e)
    else Except.error e

/-- The `__cause__` attribute of an exception: set only by
`raise ... from e`. -/
def excCause : PyExc → Option PyExc
  | PyExc.runtimeError _ c => some c
  | _ => none

/-- An argument to `analysis`: either a Python dictionary or a Python
string (which may be a path on disk or raw YAML content). -/
inductive Source where
  | dict : List (String × String) → Source
  | str : String → Source

/-- Final version of `analysis` (src/ch07dry/040Exceptions.ipynb.py
lines 366-380): `source[...]` on a dictionary reads the key (KeyError if
absent); on a string it raises TypeError, caught by the outer handler,
which tries `open(source)`; if the file is missing the FileNotFoundError
(an IOError) is caught and the string itself is loaded as raw YAML.  The
result is the name that `print(name)` shows, or the escaping
exception. -/
def analysis (fs : FS) (source : Source) : Except PyExc String :=
  match source with
  | Source.dict d =>
    match dictGet d "modelname" with
    | some name => Except.ok name
    | none => Except.error PyExc.keyError
  | Source.str s =>
    match fs s with
    | some contents =>
      match dictGet (safe_load contents) "modelname" with
      | some name => Except.ok name
      | none => Except.error PyExc.keyError
    | none =>
      match dictGet (safe_load s) "modelname" with
      | some name => Except.ok name
      | none => Except.error PyExc.keyError

/-- The comprehension `[2 ** x for x in range(10)]`
(src/ch01python/037comprehensions.ipynb.py line 25): generate the range
and transform each element. -/
def comprehensionPow : List Nat :=
  (List.range 10).map (fun x => 2 ^ x)

/-- The explicit loop (lines 31-35): start from `result = []` and
`result.append(2 ** x)` for each `x` in the range. -/
def loopPow : List Nat :=
  (List.range 10).foldl (fun result x => result ++ [2 ^ x]) []

/-- The filtered comprehension `[2 ** x for x in range(30) if x % 3 == 0]`
(line 50): generate the range, keep the elements passing the filter,
transform each. -/
def comprehensionPowFiltered : List Nat :=
  ((List.range 30).filter (fun x => x % 3 == 0)).map (fun x => 2 ^ x)

/-- The explicit filtered loop (lines 66-70): append `2 ** x` only when
`x % 3 == 0`. -/
def loopPowFiltered : List Nat :=
  (List.range 30).foldl (fun result x => if x % 3 == 0 then result ++ [2 ^ x] else result) []

/-- Python integer division as used in the `1/0` cell (line 25):
division by zero raises ZeroDivisionError. -/
def pyDiv (a b : Int) : Except PyExc Int :=
  if b = 0 then Except.error PyExc.zeroDivisionError else Except.ok (a / b)

/-- A Python runtime value, enough to model the iteration cell. -/
inductive PyVal where
  | int : Int → PyVal
  | str : String → PyVal
  | list : List PyVal → PyVal

/-- The iteration protocol behind a `for` loop: lists are iterable,
integers and strings of this model are not (`TypeError`). -/
def pyIter : PyVal → Except PyExc (List PyVal)
  | PyVal.list xs => Except.ok xs
  | _ => Except.error PyExc.typeError

/-- The cell `1/0` (line 25): terminates with ZeroDivisionError. -/
def cell_one_div_zero : Except PyExc Int := pyDiv 1 0

/-- The cell `x = 1; for y in x: print(y)` (lines 46-49): the `for` loop
asks for an iterator over the integer 1 and terminates with
TypeError. -/
def cell_iterate_over_int : Except PyExc Unit :=
  match pyIter (PyVal.int 1) with
  | Except.ok _ => Except.ok ()
  | Except.error e => Except.error e

/-- The cell `raise(MyCustomErrorType("Problem"))` (lines 65-69). -/
def cell_raise_custom_arith : Except PyExc Unit :=
  Except.error (PyExc.myCustomErrorArith "Problem")

/-- The cell `raise(MyCustomErrorType(404))` (lines 81-89). -/
def cell_raise_custom_cat : Except PyExc Unit :=
  Except.error (PyExc.myCustomErrorCat 404)

/-- The cell `higher_function()` (line 418): the RuntimeError escapes
the cell. -/
def cell_call_higher_function : Except PyExc Unit := higher_function

/-- A notebook cell viewed through its name bindings: the global names
its code reads, and the global names its execution defines. -/
structure Cell where
  uses : List String
  defines : List String

/-- The builtin names available to every cell before any user cell has
run. -/
def builtinNames : List String := ["print", "open"]

/-- Run one cell in an environment of bound names: if the cell reads a
name that is not bound, the cell terminates with NameError; otherwise it
completes and adds its definitions to the environment. -/
def runCell (env : List String) (c : Cell) : Except PyExc (List String) :=
  if c.uses.all (fun n => env.contains n) then Except.ok (env ++ c.defines)
  else Except.error PyExc.nameError

/-- The observable outcome of a cell: completion or the exception that
escaped. -/
def cellOutcome (env : List String) (c : Cell) : Except PyExc Unit :=
  match runCell env c with
  | Except.ok _ => Except.ok ()
  | Except.error e => Except.error e

/-- Run a sequence of cells in order, threading the environment. -/
def runCells (env : List String) : List Cell → Except PyExc (List String)
  | [] => Except.ok env
  | c :: cs =>
    match runCell env c with
    | Except.ok env2 => runCells env2 cs
    | Except.error e => Except.error e

/-- The `import yaml` cell (src/ch07dry/040Exceptions.ipynb.py line
100): binds the global name `yaml`. -/
def cell_import_yaml : Cell := ⟨[], ["yaml"]⟩

/-- The cell defining `read_credentials` (lines 158-173): binds the
function name; the names in its body are resolved at call time. -/
def cell_def_read_credentials : Cell := ⟨[], ["read_credentials"]⟩

/-- The cell `print(read_credentials('datasource2.yaml'))` (line 177):
reads `print`, `read_credentials` and, through the function body
executed by the call, `yaml` and `open`. -/
def cell_call_read_credentials : Cell :=
  ⟨["print", "read_credentials", "yaml", "open"], []⟩

/-- The two cells that must run before the `read_credentials` call cell
for its names to be bound. -/
def notebookPrefixCells : List Cell := [cell_import_yaml, cell_def_read_credentials]

/-- The environment after running the prefix cells from the builtins. -/
def envAfterPrefix : List String := builtinNames ++ ["yaml", "read_credentials"]

/-! ## Theorems about the claims -/

/-- C1 (counterexample): the three `read_credentials` versions are NOT
refinements of one another on every path.  On the missing file
`datasource.yaml`, v1 returns the anonymous pair while v3 raises
NameError; on `datasource3.yaml` (no `userid` key), v1 returns the
anonymous pair while v3 raises KeyError. -/
theorem read_credentials_versions_differ_on_missing_file :
    (read_credentials_v1 fixtureFS "datasource.yaml").result = Except.ok ("anonymous", none) ∧
    (read_credentials_v3 fixtureFS "datasource.yaml").result = Except.error PyExc.nameError ∧
    (read_credentials_v1 fixtureFS "datasource.yaml").result ≠
      (read_credentials_v3 fixtureFS "datasource.yaml").result ∧
    (read_credentials_v1 fixtureFS "datasource3.yaml").result = Except.ok ("anonymous", none) ∧
    (read_credentials_v3 fixtureFS "datasource3.yaml").result = Except.error PyExc.keyError ∧
    (read_credentials_v1 fixtureFS "datasource3.yaml").result ≠
      (read_credentials_v3 fixtureFS "datasource3.yaml").result := by
  refine ⟨rfl, rfl, ?_, rfl, rfl, ?_⟩ <;> decide

/-- C1 (amended): the three versions agree exactly on the success path.
For a readable file holding both keys all three return the same
`(user, password)` pair; for a missing file v1 returns the anonymous
pair while v2 and v3 raise NameError from the `finally` clause; for a
file lacking a key v1 returns the anonymous pair while v2 and v3 raise
KeyError. -/
theorem read_credentials_versions_casewise (fs : FS) (source : String) :
    (∀ contents user password,
        fs source = some contents →
        dictGet (safe_load contents) "userid" = some user →
        dictGet (safe_load contents) "password" = some password →
        (read_credentials_v1 fs source).result = Except.ok (user, some password) ∧
        (read_credentials_v2 fs source).result = Except.ok (user, some password) ∧
        (read_credentials_v3 fs source).result = Except.ok (user, some password)) ∧
    (fs source = none →
        (read_credentials_v1 fs source).result = Except.ok ("anonymous", none) ∧
        (read_credentials_v2 fs source).result = Except.error PyExc.nameError ∧
        (read_credentials_v3 fs source).result = Except.error PyExc.nameError) ∧
    (∀ contents,
        fs source = some contents →
        (dictGet (safe_load contents) "userid" = none ∨
         dictGet (safe_load contents) "password" = none) →
        (read_credentials_v1 fs source).result = Except.ok ("anonymous", none) ∧
        (read_credentials_v2 fs source).result = Except.error PyExc.keyError ∧
        (read_credentials_v3 fs source).result = Except.error PyExc.keyError) := by
  refine ⟨?_, ?_, ?_⟩
  · intro contents user password h hu hp
    exact ⟨by simp [read_credentials_v1, h, hu, hp],
           by simp [read_credentials_v2, h, hu, hp],
           by simp [read_credentials_v3, h, hu, hp]⟩
  · intro h
    exact ⟨by simp [read_credentials_v1, h],
           by simp [read_credentials_v2, h],
           by simp [read_credentials_v3, h]⟩
  · intro contents h hk
    rcases hk with hk | hk
    · exact ⟨by simp [read_credentials_v1, h, hk],
             by simp [read_credentials_v2, h, hk],
             by simp [read_credentials_v3, h, hk]⟩
    · cases hu : dictGet (safe_load contents) "userid" with
      | none =>
        exact ⟨by simp [read_credentials_v1, h, hu],
               by simp [read_credentials_v2, h, hu],
               by simp [read_credentials_v3, h, hu]⟩
      | some user =>
        exact ⟨by simp [read_credentials_v1, h, hu, hk],
               by simp [read_credentials_v2, h, hu, hk],
               by simp [read_credentials_v3, h, hu, hk]⟩

/-- C1 (witness): evaluated on the fixture `datasource2.yaml`, which
holds both keys, all three versions return `("eidle", "secret")`. -/
theorem read_credentials_versions_casewise_witness :
    (read_credentials_v1 fixtureFS "datasource2.yaml").result = Except.ok ("eidle", some "secret") ∧
    (read_credentials_v2 fixtureFS "datasource2.yaml").result = Except.ok ("eidle", some "secret") ∧
    (read_credentials_v3 fixtureFS "datasource2.yaml").result = Except.ok ("eidle", some "secret") :=
  (read_credentials_versions_casewise fixtureFS "datasource2.yaml").1
    "userid: eidle\npassword: secret\n" "eidle" "secret" rfl rfl rfl

/-- C2: the first version of `read_credentials` returns the pair read
from the config when the file exists and has both keys, and returns
`("anonymous", None)` both on the FileNotFoundError path and on the
KeyError path. -/
theorem read_credentials_v1_spec (fs : FS) (source : String) :
    (∀ contents user password,
        fs source = some contents →
        dictGet (safe_load contents) "userid" = some user →
        dictGet (safe_load contents) "password" = some password →
        (read_credentials_v1 fs source).result = Except.ok (user, some password)) ∧
    (fs source = none →
        (read_credentials_v1 fs source).result = Except.ok ("anonymous", none)) ∧
    (∀ contents,
        fs source = some contents →
        (dictGet (safe_load contents) "userid" = none ∨
         dictGet (safe_load contents) "password" = none) →
        (read_credentials_v1 fs source).result = Except.ok ("anonymous", none)) := by
  refine ⟨?_, ?_, ?_⟩
  · intro contents user password h hu hp
    simp [read_credentials_v1, h, hu, hp]
  · intro h
    simp [read_credentials_v1, h]
  · intro contents h hk
    rcases hk with hk | hk
    · simp [read_credentials_v1, h, hk]
    · cases hu : dictGet (safe_load contents) "userid" with
      | none => simp [read_credentials_v1, h, hu]
      | some user => simp [read_credentials_v1, h, hu, hk]

/-- C2 (witness): the three notebook calls (lines 177-183): the file
with both keys yields `("eidle", "secret")`, the missing file and the
file with a wrong key both yield the anonymous pair. -/
theorem read_credentials_v1_spec_witness :
    (read_credentials_v1 fixtureFS "datasource2.yaml").result = Except.ok ("eidle", some "secret") ∧
    (read_credentials_v1 fixtureFS "datasource.yaml").result = Except.ok ("anonymous", none) ∧
    (read_credentials_v1 fixtureFS "datasource3.yaml").result = Except.ok ("anonymous", none) :=
  ⟨(read_credentials_v1_spec fixtureFS "datasource2.yaml").1
      "userid: eidle\npassword: secret\n" "eidle" "secret" rfl rfl rfl,
   (read_credentials_v1_spec fixtureFS "datasource.yaml").2.1 rfl,
   (read_credentials_v1_spec fixtureFS "datasource3.yaml").2.2
      "user: eidle\npassword: secret\n" rfl (Or.inl rfl)⟩

/-- C3: in the third version of `read_credentials`, a missing source
file does not produce the anonymous pair: the `finally` clause
evaluates `datasource.close()` with `datasource` unbound and the call
raises NameError instead of returning. -/
theorem read_credentials_v3_missing_file_raises (fs : FS) (source : String)
    (h : fs source = none) :
    (read_credentials_v3 fs source).result = Except.error PyExc.nameError ∧
    (read_credentials_v3 fs source).result ≠ Except.ok ("anonymous", none) := by
  constructor
  · simp [read_credentials_v3, h]
  · simp [read_credentials_v3, h]

/-- C3 (witness): `datasource.yaml` is never written by the notebook,
and v3 applied to it raises NameError. -/
theorem read_credentials_v3_missing_file_raises_witness :
    fixtureFS "datasource.yaml" = none ∧
    (read_credentials_v3 fixtureFS "datasource.yaml").result = Except.error PyExc.nameError ∧
    (read_credentials_v3 fixtureFS "datasource.yaml").result ≠ Except.ok ("anonymous", none) :=
  ⟨rfl, read_credentials_v3_missing_file_raises fixtureFS "datasource.yaml" rfl⟩

/-- C4: the comprehension `[2 ** x for x in range(10)]` equals the list
built by the append loop, and the filtered comprehension
`[2 ** x for x in range(30) if x % 3 == 0]` equals the list built by
the loop that appends only when `x % 3 == 0`. -/
theorem comprehensions_equal_loops :
    comprehensionPow = loopPow ∧ comprehensionPowFiltered = loopPowFiltered := by
  decide

/-- C5: an exception raised in `f4` propagates up through `f3`, `f2`,
`f1` until the first matching handler: for `x = 1` the ArithmeticError
is caught in `f3`, for `x = 2` the SyntaxError skips the `f3` handler
and is caught in `f2`, for `x = 3` the TypeError skips both and is
caught in `f1`; in every case `f1` returns normally. -/
theorem exception_propagation_f1 :
    f1 0 = (["F1Before", "F2Before", "F3Before", "F3After", "F2After", "F1After"], Except.ok ()) ∧
    f1 1 = (["F1Before", "F2Before", "F3Before", "F3Except (💣)", "F2After", "F1After"], Except.ok ()) ∧
    f1 2 = (["F1Before", "F2Before", "F3Before", "F2Except (💣)", "F1After"], Except.ok ()) ∧
    f1 3 = (["F1Before", "F2Before", "F3Before", "F1Except (💣)"], Except.ok ()) :=
  ⟨rfl, rfl, rfl, rfl⟩

/-- C6: `higher_function` always raises a RuntimeError whose attached
cause (`__cause__`, created by `raise ... from e`) is exactly the
ValueError raised by `lower_function`. -/
theorem higher_function_cause_chain :
    lower_function = Except.error (PyExc.valueError "Error in lower function!") ∧
    higher_function = Except.error (PyExc.runtimeError "Error in higher function!"
        (PyExc.valueError "Error in lower function!")) ∧
    (∃ e, higher_function = Except.error e ∧
        excCause e = some (PyExc.valueError "Error in lower function!")) :=
  ⟨rfl, rfl,
   ⟨PyExc.runtimeError "Error in higher function!" (PyExc.valueError "Error in lower function!"),
    rfl, rfl⟩⟩

/-- C7: the final version of `analysis` prints the value under
`modelname` for a dictionary holding that key, for a path to an
existing YAML file holding that key, and for a raw YAML string holding
that key, raising no exception in any of the three shapes. -/
theorem analysis_final_three_shapes (fs : FS) :
    (∀ d name, dictGet d "modelname" = some name →
        analysis fs (Source.dict d) = Except.ok name) ∧
    (∀ path contents name, fs path = some contents →
        dictGet (safe_load contents) "modelname" = some name →
        analysis fs (Source.str path) = Except.ok name) ∧
    (∀ s name, fs s = none →
        dictGet (safe_load s) "modelname" = some name →
        analysis fs (Source.str s) = Except.ok name) := by
  refine ⟨?_, ?_, ?_⟩
  · intro d name hd
    simp [analysis, hd]
  · intro path contents name hp hd
    simp [analysis, hp, hd]
  · intro s name hs hd
    simp [analysis, hs, hd]

/-- C7 (witness): the three notebook calls: the dictionary
`{modelname: Super}`, the path `example.yaml` on disk, and the raw YAML
string `modelname: Amazing`, each print their model name. -/
theorem analysis_final_three_shapes_witness :
    analysis fixtureFS (Source.dict [("modelname", "Super")]) = Except.ok "Super" ∧
    analysis fixtureFS (Source.str "example.yaml") = Except.ok "brilliant" ∧
    analysis fixtureFS (Source.str "modelname: Amazing") = Except.ok "Amazing" :=
  ⟨(analysis_final_three_shapes fixtureFS).1 [("modelname", "Super")] "Super" rfl,
   (analysis_final_three_shapes fixtureFS).2.1 "example.yaml" "modelname: brilliant\n"
      "brilliant" rfl rfl,
   (analysis_final_three_shapes fixtureFS).2.2 "modelname: Amazing" "Amazing" rfl rfl⟩

/-- C8 (counterexample): not every cell runs to completion: the very
first code cell, `1/0`, terminates with an uncaught
ZeroDivisionError. -/
theorem cell_one_div_zero_raises :
    cell_one_div_zero = Except.error PyExc.zeroDivisionError := rfl

/-- C8 (amended): every modelled cell runs to completion except the
cells whose teaching point is an uncaught exception: `1/0` raises
ZeroDivisionError, iterating over the integer 1 raises TypeError, the
two `raise MyCustomErrorType(...)` cells raise the custom errors, and
`higher_function()` raises the chained RuntimeError; the
`read_credentials` call cells, the `f1` cells and the `analysis` cells
all complete. -/
theorem cells_complete_except_demonstrated_errors :
    cell_one_div_zero = Except.error PyExc.zeroDivisionError ∧
    cell_iterate_over_int = Except.error PyExc.typeError ∧
    cell_raise_custom_arith = Except.error (PyExc.myCustomErrorArith "Problem") ∧
    cell_raise_custom_cat = Except.error (PyExc.myCustomErrorCat 404) ∧
    cell_call_higher_function = Except.error (PyExc.runtimeError "Error in higher function!"
        (PyExc.valueError "Error in lower function!")) ∧
    (f1 0).2 = Except.ok () ∧
    (f1 1).2 = Except.ok () ∧
    (f1 2).2 = Except.ok () ∧
    (f1 3).2 = Except.ok () ∧
    (read_credentials_v1 fixtureFS "datasource2.yaml").result = Except.ok ("eidle", some "secret") ∧
    (read_credentials_v1 fixtureFS "datasource.yaml").result = Except.ok ("anonymous", none) ∧
    (read_credentials_v1 fixtureFS "datasource3.yaml").result = Except.ok ("anonymous", none) ∧
    analysis fixtureFS (Source.dict [("modelname", "Super")]) = Except.ok "Super" ∧
    analysis fixtureFS (Source.str "example.yaml") = Except.ok "brilliant" ∧
    analysis fixtureFS (Source.str "modelname: Amazing") = Except.ok "Amazing" :=
  ⟨rfl, rfl, rfl, rfl, rfl, rfl, rfl, rfl, rfl, rfl, rfl, rfl, rfl, rfl, rfl⟩

/-- C9 (counterexample): the cell
`print(read_credentials('datasource2.yaml'))` does depend on bindings
created by earlier cells: in isolation (only the builtins bound) it
terminates with NameError, while after the `import yaml` and
`def read_credentials` cells it completes, so isolation and in-sequence
evaluation differ. -/
theorem call_cell_isolation_differs :
    cellOutcome builtinNames cell_call_read_credentials = Except.error PyExc.nameError ∧
    runCells builtinNames notebookPrefixCells = Except.ok envAfterPrefix ∧
    cellOutcome envAfterPrefix cell_call_read_credentials = Except.ok () ∧
    cellOutcome builtinNames cell_call_read_credentials ≠
      cellOutcome envAfterPrefix cell_call_read_credentials := by
  refine ⟨rfl, rfl, rfl, ?_⟩
  decide

/-- C9 (amended): cells reading only builtin names evaluate the same in
isolation as after any earlier cells, but the cells calling
`read_credentials` read names bound by earlier cells (the import and the
function definition) and so change outcome: NameError in isolation,
completion after the prefix ran. -/
theorem cells_binding_dependency :
    (∀ c env, c.uses.all (fun n => builtinNames.contains n) = true →
        (∀ n, builtinNames.contains n = true → env.contains n = true) →
        cellOutcome builtinNames c = Except.ok () ∧ cellOutcome env c = Except.ok ()) ∧
    cellOutcome builtinNames cell_call_read_credentials = Except.error PyExc.nameError ∧
    runCells builtinNames notebookPrefixCells = Except.ok envAfterPrefix ∧
    cellOutcome envAfterPrefix cell_call_read_credentials = Except.ok () := by
  refine ⟨?_, rfl, rfl, rfl⟩
  intro c env hall hmono
  constructor
  · simp only [cellOutcome, runCell, hall, if_pos]
  · have h2 : c.uses.all (fun n => env.contains n) = true := by
      rw [List.all_eq_true] at hall ⊢
      intro n hn
      exact hmono n (hall n hn)
    simp only [cellOutcome, runCell, h2, if_pos]

/-- C9 (amended, witness): the isolation-independence part applied to
the `import yaml` cell, which reads no names, in the environment after
the prefix. -/
theorem cells_binding_dependency_witness :
    cellOutcome builtinNames cell_import_yaml = Except.ok () ∧
    cellOutcome envAfterPrefix cell_import_yaml = Except.ok () :=
  (cells_binding_dependency).1 cell_import_yaml envAfterPrefix rfl
    (by
      intro n hn
      have h2 : n = "print" ∨ n = "open" := by simpa [builtinNames] using hn
      rcases h2 with rfl | rfl <;> simp [envAfterPrefix, builtinNames])

/-- C10: in the first version of `read_credentials`, when the file
exists but lacks `userid` or `password`, the KeyError handler returns
the anonymous pair while the opened handle is never closed:
`datasource.close()` does not run on that path. -/
theorem read_credentials_v1_keyerror_leaves_file_open (fs : FS) (source contents : String)
    (h : fs source = some contents)
    (hk : dictGet (safe_load contents) "userid" = none ∨
          dictGet (safe_load contents) "password" = none) :
    (read_credentials_v1 fs source).result = Except.ok ("anonymous", none) ∧
    (read_credentials_v1 fs source).openedFile = true ∧
    (read_credentials_v1 fs source).closedFile = false := by
  rcases hk with hk | hk
  · refine ⟨?_, ?_, ?_⟩ <;> simp [read_credentials_v1, h, hk]
  · cases hu : dictGet (safe_load contents) "userid" with
    | none => refine ⟨?_, ?_, ?_⟩ <;> simp [read_credentials_v1, h, hu]
    | some user => refine ⟨?_, ?_, ?_⟩ <;> simp [read_credentials_v1, h, hu, hk]

/-- C10 (witness): on the fixture `datasource3.yaml` (which has `user`
instead of `userid`) v1 returns the anonymous pair with the handle
opened and never closed. -/
theorem read_credentials_v1_keyerror_leaves_file_open_witness :
    (read_credentials_v1 fixtureFS "datasource3.yaml").result = Except.ok ("anonymous", none) ∧
    (read_credentials_v1 fixtureFS "datasource3.yaml").openedFile = true ∧
    (read_credentials_v1 fixtureFS "datasource3.yaml").closedFile = false :=
  read_credentials_v1_keyerror_leaves_file_open fixtureFS "datasource3.yaml"
    "user: eidle\npassword: secret\n" rfl (Or.inl rfl)

end Notebook
